import Mathlib

/-!
Verification of the fee-computation core of `src/extensions/position.rs`
(`get_collectable_token_amounts`, lines 113–196) and of the metadata-image
extraction in `get_token_svg` (lines 207–230).

Modelling conventions:

* A 256-bit unsigned integer (`ethers::types::U256`, i.e. `primitive_types::U256`)
  is modelled as a `Nat` together with the invariant that its value is below
  `2 ^ 256`.  The `Sub` operator of `primitive_types::U256` is checked: it
  panics on underflow in every build profile (the `uint` crate calls
  `panic_on_overflow` after `overflowing_sub`).  A panic is modelled as `none`,
  so that operator becomes `u256_sub : Nat → Nat → Option Nat`.
* The wraparound subtraction modulo `2 ^ 256` that the specification
  prescribes (§4.1, §4.2) is `u256_wrapping_sub`.
* RPC plumbing (multicall batching, contract instantiation) is out of scope
  per §1 of the spec; the arithmetic core is modelled as a pure function of
  the fetched snapshot values.
* `serde_json::Value` is modelled by the inductive `Json`; `Value::to_string`
  (compact serialization) by `Json.serialize`.  Rust string slicing at byte
  positions is modelled at character level; this is exact here because the
  first and the last character of any serialized JSON value are ASCII, so the
  byte positions `1` and `len - 1` are character boundaries.
-/

namespace UniswapV3Position

/-- Checked 256-bit subtraction: the `-` operator of `ethers::types::U256`
(`primitive_types::U256`), which panics (modelled as `none`) whenever the
subtrahend exceeds the minuend.  Used by lines 165–184 of `position.rs`. -/
def u256_sub (a b : Nat) : Option Nat :=
  if b ≤ a then some (a - b) else none

/-- Wraparound subtraction modulo `2 ^ 256`, as prescribed by §4.1 of the
specification for all fee-growth arithmetic. -/
def u256_wrapping_sub (a b : Nat) : Nat :=
  (a + (2 ^ 256 - b % 2 ^ 256)) % 2 ^ 256

/-- Addition modulo `2 ^ 256`; used to express a shift of an accumulator by a
256-bit constant. -/
def u256_add (a b : Nat) : Nat :=
  (a + b) % 2 ^ 256

/-- Per-token fee-growth-inside computation of `get_collectable_token_amounts`,
`position.rs` lines 165–184.  The three-way branch on the current tick is taken
verbatim from the source (`tick < position.tick_lower`, then
`tick >= position.tick_upper`, else the in-range case); every subtraction is
the checked `u256_sub` of `ethers::types::U256`, and in the in-range branch the
left-associated `global - outside_lower - outside_upper` becomes a `bind` of
two checked subtractions.  The source computes both tokens inside a single
branch; the branch condition is pure, so evaluating it once per token is
equivalent. -/
def fee_growth_inside (tick tick_lower tick_upper : Int)
    (fee_growth_global fee_growth_outside_lower fee_growth_outside_upper : Nat) :
    Option Nat :=
  if tick < tick_lower then
    u256_sub fee_growth_outside_lower fee_growth_outside_upper
  else if tick_upper ≤ tick then
    u256_sub fee_growth_outside_upper fee_growth_outside_lower
  else
    (u256_sub fee_growth_global fee_growth_outside_lower).bind
      (fun d => u256_sub d fee_growth_outside_upper)

/-- Modelled from the spec: `get_tokens_owed` is declared in `crate::prelude`
and its body is not under `src/`; §4.2 of the specification defines the
per-token incremental owed amount as
`floor(liquidity * ((feeGrowthInside − feeGrowthInsideLast) mod 2^256) / 2^128)`,
with the delta taken by wraparound subtraction and the multiply-then-shift
carried out at full precision. -/
def tokens_owed_delta (fee_growth_inside_last liquidity fee_growth_inside_now : Nat) : Nat :=
  liquidity * u256_wrapping_sub fee_growth_inside_now fee_growth_inside_last / 2 ^ 128

/-- Modelled from the spec: the two-token `get_tokens_owed` called on
`position.rs` lines 185–191, applying `tokens_owed_delta` to each token. -/
def get_tokens_owed (fee_growth_inside_0_last fee_growth_inside_1_last liquidity
    fee_growth_inside_0 fee_growth_inside_1 : Nat) : Nat × Nat :=
  (tokens_owed_delta fee_growth_inside_0_last liquidity fee_growth_inside_0,
   tokens_owed_delta fee_growth_inside_1_last liquidity fee_growth_inside_1)

/-- The position fields consumed by `get_collectable_token_amounts`:
`tick_lower`/`tick_upper` are `int24`, `liquidity` and the two
`tokens_owed` fields are `u128`, the two `fee_growth_inside_last` fields are
`U256` (Q128.128). -/
structure PositionSnapshot where
  tick_lower : Int
  tick_upper : Int
  liquidity : Nat
  fee_growth_inside_0_last : Nat
  fee_growth_inside_1_last : Nat
  tokens_owed_0 : Nat
  tokens_owed_1 : Nat

/-- Owed-amount accumulation of `position.rs` lines 185–195: the incremental
amounts from `get_tokens_owed` added to the recorded `tokens_owed_0/1`
(widened from `u128` to 256 bits by `u128_to_uint256`); the sums are 256-bit
values, hence the reduction modulo `2 ^ 256`. -/
def owed_amounts (pos : PositionSnapshot) (inside0 inside1 : Nat) : Nat × Nat :=
  ((pos.tokens_owed_0 +
      tokens_owed_delta pos.fee_growth_inside_0_last pos.liquidity inside0) % 2 ^ 256,
   (pos.tokens_owed_1 +
      tokens_owed_delta pos.fee_growth_inside_1_last pos.liquidity inside1) % 2 ^ 256)

/-- The arithmetic core of `get_collectable_token_amounts`
(`position.rs` lines 165–196), as a function of the fetched snapshot: current
tick, position fields, the two global fee-growth accumulators and the four
outside accumulators of the boundary ticks.  `none` models a panic of the
checked `U256` subtraction. -/
def get_collectable_token_amounts (tick : Int) (pos : PositionSnapshot)
    (global0 global1 outside_lower0 outside_lower1 outside_upper0 outside_upper1 : Nat) :
    Option (Nat × Nat) :=
  (fee_growth_inside tick pos.tick_lower pos.tick_upper
      global0 outside_lower0 outside_upper0).bind fun i0 =>
  (fee_growth_inside tick pos.tick_lower pos.tick_upper
      global1 outside_lower1 outside_upper1).bind fun i1 =>
  some (owed_amounts pos i0 i1)

/-- Model of `serde_json::Value` (numbers restricted to integers; no claim
depends on non-integral numbers). -/
inductive Json where
  | null : Json
  | bool : Bool → Json
  | num : Int → Json
  | str : String → Json
  | arr : List Json → Json
  | obj : List (String × Json) → Json

/-- First-match lookup in the member list of a JSON object, modelling
`serde_json::Value::get` on a `Map`. -/
def lookupMember : List (String × Json) → String → Option Json
  | [], _ => none
  | (k, v) :: rest, key => if k = key then some v else lookupMember rest key

/-- Model of `serde_json::Value::get(key)`: member lookup on objects, `None`
on every other variant. -/
def Json.get (v : Json) (key : String) : Option Json :=
  match v with
  | .obj members => lookupMember members key
  | _ => none

/-- Escape of a single character inside a JSON string, following
`serde_json`'s compact serializer. -/
def escapeChar (c : Char) : String :=
  if c = Char.ofNat 34 then "\\\""
  else if c = Char.ofNat 92 then "\\\\"
  else if c = Char.ofNat 8 then "\\b"
  else if c = Char.ofNat 12 then "\\f"
  else if c = Char.ofNat 10 then "\\n"
  else if c = Char.ofNat 13 then "\\r"
  else if c = Char.ofNat 9 then "\\t"
  else if c.toNat < 32 then
    "\\u00" ++ String.singleton (Char.ofNat (if c.toNat / 16 < 10 then 48 + c.toNat / 16 else 87 + c.toNat / 16))
      ++ String.singleton (Char.ofNat (if c.toNat % 16 < 10 then 48 + c.toNat % 16 else 87 + c.toNat % 16))
  else String.singleton c

/-- Escape of a whole JSON string body. -/
def escapeString (s : String) : String :=
  String.join (s.toList.map escapeChar)

mutual

/-- Compact serialization of a JSON value, modelling
`serde_json::Value::to_string()` as invoked on `position.rs` line 228. -/
def Json.serialize : Json → String
  | .null => "null"
  | .bool true => "true"
  | .bool false => "false"
  | .num n => toString n
  | .str s => "\"" ++ escapeString s ++ "\""
  | .arr xs => "[" ++ Json.serializeList xs ++ "]"
  | .obj xs => "\x7b" ++ Json.serializeMembers xs ++ "\x7d"

/-- Comma-separated serialization of an array body. -/
def Json.serializeList : List Json → String
  | [] => ""
  | [x] => Json.serialize x
  | x :: y :: rest => Json.serialize x ++ "," ++ Json.serializeList (y :: rest)

/-- Comma-separated serialization of an object body. -/
def Json.serializeMembers : List (String × Json) → String
  | [] => ""
  | [(k, v)] => "\"" ++ escapeString k ++ "\":" ++ Json.serialize v
  | (k, v) :: m :: rest =>
      "\"" ++ escapeString k ++ "\":" ++ Json.serialize v ++ ","
        ++ Json.serializeMembers (m :: rest)

end

/-- The post-parse stage of `get_token_svg`, `position.rs` lines 223–229:
given the successfully parsed JSON document, look up the `"image"` member
(the `unwrap` panic on a missing member is modelled as `none`), serialize it
with `to_string()`, and return the slice `image[1..image.len() - 1]` (which
panics — again `none` — when the serialized text is shorter than two
characters, since then the slice bounds are invalid). -/
def get_token_svg (v : Json) : Option String :=
  (Json.get v "image").bind fun img =>
    if 2 ≤ (Json.serialize img).length then
      some (((Json.serialize img).drop 1).dropRight 1)
    else none


/-! Helper lemmas shared by the claim theorems. -/

theorem wsub_lt (a b : Nat) : u256_wrapping_sub a b < 2 ^ 256 := by
  unfold u256_wrapping_sub
  exact Nat.mod_lt _ (by positivity)

theorem wsub_self (x : Nat) : u256_wrapping_sub x x = 0 := by
  unfold u256_wrapping_sub
  norm_num
  omega

theorem owed_sum_lt (ow liq w : Nat) (how : ow < 2 ^ 128) (hliq : liq < 2 ^ 128)
    (hw : w < 2 ^ 256) : ow + liq * w / 2 ^ 128 < 2 ^ 256 := by
  have hd : liq * w / 2 ^ 128 < 2 ^ 256 - 2 ^ 128 := by
    rw [Nat.div_lt_iff_lt_mul (by positivity)]
    calc liq * w ≤ (2 ^ 128 - 1) * (2 ^ 256 - 1) :=
          Nat.mul_le_mul (Nat.le_sub_one_of_lt hliq) (Nat.le_sub_one_of_lt hw)
      _ < (2 ^ 256 - 2 ^ 128) * 2 ^ 128 := by norm_num
  calc ow + liq * w / 2 ^ 128 < 2 ^ 128 + (2 ^ 256 - 2 ^ 128) := Nat.add_lt_add how hd
    _ = 2 ^ 256 := Nat.add_sub_cancel' (by norm_num)

theorem owed_component_eq (ow liq last ins : Nat) (how : ow < 2 ^ 128)
    (hliq : liq < 2 ^ 128) :
    (ow + tokens_owed_delta last liq ins) % 2 ^ 256
      = ow + liq * u256_wrapping_sub ins last / 2 ^ 128 := by
  unfold tokens_owed_delta
  exact Nat.mod_eq_of_lt (owed_sum_lt _ _ _ how hliq (wsub_lt _ _))

/-! Claim theorems. -/

/-- C1: at a snapshot below the range (`currentTick < tickLower`) with
`outside(lower) = 0`, `outside(upper) = 1`, the claimed result is the wrapped
difference `outside(lower) − outside(upper) = 2 ^ 256 − 1` per token; the code
instead performs the checked `U256` subtraction, which panics (`none`), so
`get_collectable_token_amounts` produces no value at all. -/
theorem below_range_underflow_code_bug :
    get_collectable_token_amounts (-200) ⟨-100, 100, 1000, 0, 0, 0, 0⟩ 100 100 0 0 1 1 = none
      ∧ fee_growth_inside (-200) (-100) 100 100 0 1 = none
      ∧ u256_wrapping_sub 0 1 = 2 ^ 256 - 1 :=
  ⟨rfl, rfl, rfl⟩

/-- C2: the specification's own underflow scenario (`feeGrowthGlobal = 5`,
`feeGrowthOutside(lower) = 10`, price inside the range): the claim requires
the wrapped value `2 ^ 256 − 5` and that the subtraction never raises; the
code's checked `U256` subtraction panics (`none`) instead of wrapping. -/
theorem wrapping_sub_underflow_code_bug :
    get_collectable_token_amounts 0 ⟨-100, 100, 1000, 0, 0, 0, 0⟩ 5 5 10 10 0 0 = none
      ∧ fee_growth_inside 0 (-100) 100 5 10 0 = none
      ∧ u256_wrapping_sub (u256_wrapping_sub 5 10) 0 = 2 ^ 256 - 5 :=
  ⟨rfl, rfl, rfl⟩

/-- C4: shifting `feeGrowthGlobal` and both `feeGrowthOutside` values by the
same 256-bit constant `c = 2 ^ 256 − 1` changes the computed fee-growth-inside
value: below the range with `outside(lower) = 1`, `outside(upper) = 0` the
code returns `1`, but after the shift the checked subtraction underflows and
the code panics (`none`) instead of returning `1` again. -/
theorem shift_invariance_code_bug :
    fee_growth_inside (-200) (-100) 100 7 1 0 = some 1
      ∧ fee_growth_inside (-200) (-100) 100 (u256_add 7 (2 ^ 256 - 1))
          (u256_add 1 (2 ^ 256 - 1)) (u256_add 0 (2 ^ 256 - 1)) = none :=
  ⟨rfl, rfl⟩

/-- C5: for every valid range (`tickLower < tickUpper`) the three conditions
`currentTick < tickLower`, `currentTick ≥ tickUpper` and
`tickLower ≤ currentTick < tickUpper` are mutually exclusive and exhaustive,
and `fee_growth_inside` produces its result from exactly the branch whose
condition holds. -/
theorem branch_trichotomy (tick tl tu : Int) (h : tl < tu) (g oL oU : Nat) :
    ((tick < tl ∧ ¬ tu ≤ tick ∧ ¬ (tl ≤ tick ∧ tick < tu)) ∧
       fee_growth_inside tick tl tu g oL oU = u256_sub oL oU)
    ∨ ((¬ tick < tl ∧ tu ≤ tick ∧ ¬ (tl ≤ tick ∧ tick < tu)) ∧
       fee_growth_inside tick tl tu g oL oU = u256_sub oU oL)
    ∨ ((¬ tick < tl ∧ ¬ tu ≤ tick ∧ (tl ≤ tick ∧ tick < tu)) ∧
       fee_growth_inside tick tl tu g oL oU
         = (u256_sub g oL).bind (fun d => u256_sub d oU)) := by
  unfold fee_growth_inside
  rcases lt_or_le tick tl with h1 | h1
  · exact Or.inl ⟨⟨h1, by omega, by omega⟩, by rw [if_pos h1]⟩
  · rcases le_or_lt tu tick with h2 | h2
    · refine Or.inr (Or.inl ⟨⟨by omega, h2, by omega⟩, ?_⟩)
      rw [if_neg (by omega), if_pos h2]
    · refine Or.inr (Or.inr ⟨⟨by omega, by omega, h1, h2⟩, ?_⟩)
      rw [if_neg (by omega), if_neg (by omega)]

/-- Witness for C5 at the literal scenario `tickLower = -100`,
`tickUpper = 100`, `currentTick = 0`: the in-range branch is the one taken. -/
theorem branch_trichotomy_witness :
    fee_growth_inside 0 (-100) 100 40 10 20
      = (u256_sub 40 10).bind (fun d => u256_sub d 20) := by
  rcases branch_trichotomy 0 (-100) 100 (by norm_num) 40 10 20 with
    ⟨⟨h, _⟩, _⟩ | ⟨⟨_, h, _⟩, _⟩ | ⟨_, he⟩
  · exact absurd h (by norm_num)
  · exact absurd h (by norm_num)
  · exact he

/-- C3: whenever the fee-growth-inside stage produces values `i0`, `i1`, the
function returns, per token, `tokensOwed + floor(liquidity * ((inside −
insideLast) mod 2^256) / 2^128)`: the growth-delta subtraction wraps modulo
`2 ^ 256` and the multiply-then-shift is exact — the final reduction modulo
`2 ^ 256` is the identity, so no intermediate truncation occurs. -/
theorem collectable_amounts_formula (tick : Int) (pos : PositionSnapshot)
    (g0 g1 oL0 oL1 oU0 oU1 i0 i1 : Nat)
    (hliq : pos.liquidity < 2 ^ 128)
    (h0 : pos.tokens_owed_0 < 2 ^ 128) (h1 : pos.tokens_owed_1 < 2 ^ 128)
    (hi0 : fee_growth_inside tick pos.tick_lower pos.tick_upper g0 oL0 oU0 = some i0)
    (hi1 : fee_growth_inside tick pos.tick_lower pos.tick_upper g1 oL1 oU1 = some i1) :
    get_collectable_token_amounts tick pos g0 g1 oL0 oL1 oU0 oU1
      = some (pos.tokens_owed_0 +
                pos.liquidity * u256_wrapping_sub i0 pos.fee_growth_inside_0_last / 2 ^ 128,
              pos.tokens_owed_1 +
                pos.liquidity * u256_wrapping_sub i1 pos.fee_growth_inside_1_last / 2 ^ 128) := by
  have hcore : get_collectable_token_amounts tick pos g0 g1 oL0 oL1 oU0 oU1
      = some (owed_amounts pos i0 i1) := by
    unfold get_collectable_token_amounts
    rw [hi0, hi1]
    rfl
  rw [hcore]
  unfold owed_amounts
  rw [owed_component_eq _ _ _ _ h0 hliq, owed_component_eq _ _ _ _ h1 hliq]

/-- Witness for C3: price in range, `feeGrowthGlobal = 2 ^ 128`, all outside
and checkpoint accumulators zero, `liquidity = 1_000_000`. -/
theorem collectable_amounts_formula_witness :
    get_collectable_token_amounts 0 ⟨-100, 100, 1000000, 0, 0, 0, 0⟩
        (2 ^ 128) (2 ^ 128) 0 0 0 0
      = some (0 + 1000000 * u256_wrapping_sub (2 ^ 128) 0 / 2 ^ 128,
              0 + 1000000 * u256_wrapping_sub (2 ^ 128) 0 / 2 ^ 128) :=
  collectable_amounts_formula 0 ⟨-100, 100, 1000000, 0, 0, 0, 0⟩
    (2 ^ 128) (2 ^ 128) 0 0 0 0 (2 ^ 128) (2 ^ 128)
    (by norm_num) (by norm_num) (by norm_num) (by rfl) (by rfl)

/-- C6: zero-delta idempotence — when both current fee-growth-inside values
equal the recorded last values, the owed-amount output is exactly the recorded
`tokensOwed0`, `tokensOwed1`, widened to 256 bits. -/
theorem zero_delta_idempotent (pos : PositionSnapshot)
    (h0 : pos.tokens_owed_0 < 2 ^ 128) (h1 : pos.tokens_owed_1 < 2 ^ 128) :
    owed_amounts pos pos.fee_growth_inside_0_last pos.fee_growth_inside_1_last
      = (pos.tokens_owed_0, pos.tokens_owed_1) := by
  unfold owed_amounts tokens_owed_delta
  rw [wsub_self, wsub_self]
  simp only [Nat.mul_zero, Nat.zero_div, Nat.add_zero]
  rw [Nat.mod_eq_of_lt (lt_trans h0 (by norm_num)),
    Nat.mod_eq_of_lt (lt_trans h1 (by norm_num))]

/-- Witness for C6 at a concrete position with nonzero checkpoints and owed
fields. -/
theorem zero_delta_idempotent_witness :
    (7 : Nat) < 2 ^ 128 ∧ (9 : Nat) < 2 ^ 128 ∧
    owed_amounts ⟨-100, 100, 55, 3, 4, 7, 9⟩ 3 4 = (7, 9) :=
  ⟨by norm_num, by norm_num,
    zero_delta_idempotent ⟨-100, 100, 55, 3, 4, 7, 9⟩ (by norm_num) (by norm_num)⟩

/-- C7: monotonicity — with the range, boundary states and checkpoint held
fixed, a larger liquidity gives an incremental owed-amount delta at least as
large, per token. -/
theorem tokens_owed_delta_monotone (last now l1 l2 : Nat) (h : l1 ≤ l2) :
    tokens_owed_delta last l1 now ≤ tokens_owed_delta last l2 now := by
  unfold tokens_owed_delta
  exact Nat.div_le_div_right (Nat.mul_le_mul_right _ h)

/-- Witness for C7 at liquidities `5 ≤ 8` and growth delta `2 ^ 128`. -/
theorem tokens_owed_delta_monotone_witness :
    (5 : Nat) ≤ 8 ∧ tokens_owed_delta 0 5 (2 ^ 128) ≤ tokens_owed_delta 0 8 (2 ^ 128) :=
  ⟨by norm_num, tokens_owed_delta_monotone 0 (2 ^ 128) 5 8 (by norm_num)⟩

/-- C8: the literal scenario — `liquidity = 1_000_000`,
`feeGrowthInside = 2 ^ 128`, `feeGrowthInsideLast = 0`, `tokensOwed = 0` —
yields an incremental owed amount of exactly `1_000_000` per token, with no
rounding loss. -/
theorem literal_owed_exact :
    get_tokens_owed 0 0 1000000 (2 ^ 128) (2 ^ 128) = (1000000, 1000000)
      ∧ tokens_owed_delta 0 1000000 (2 ^ 128) = 1000000 :=
  ⟨rfl, rfl⟩

/-- C9: a parsed metadata document that is valid JSON but has no `"image"`
member makes `get_token_svg` call `unwrap` on `None` and panic (modelled as
`none`) rather than return through the error channel used for decode and
parse failures. -/
theorem missing_image_key_panics :
    Json.get (Json.obj [("name", Json.str "Uniswap Position")]) "image" = none
      ∧ get_token_svg (Json.obj [("name", Json.str "Uniswap Position")]) = none :=
  ⟨rfl, rfl⟩

/-- C10: whenever `get_token_svg` succeeds, the returned string is the
`to_string()` serialization of the `"image"` member with its first and last
characters removed (for a JSON string member these are its surrounding
quotation marks). -/
theorem token_svg_strips_ends (v img : Json) (s : String)
    (hget : Json.get v "image" = some img)
    (hs : get_token_svg v = some s) :
    s = ((Json.serialize img).drop 1).dropRight 1 := by
  unfold get_token_svg at hs
  rw [hget] at hs
  simp only [Option.some_bind] at hs
  by_cases hlen : 2 ≤ (Json.serialize img).length
  · rw [if_pos hlen] at hs
    exact (Option.some.inj hs).symm
  · rw [if_neg hlen] at hs
    exact Option.noConfusion hs

/-- Witness for C10 on the document `\x7b"image":"ab"\x7d`: the serialized
member is `"ab"` with quotation marks, and the returned string is `ab`. -/
theorem token_svg_strips_ends_witness :
    get_token_svg (Json.obj [("image", Json.str "ab")]) = some "ab"
      ∧ "ab" = ((Json.serialize (Json.str "ab")).drop 1).dropRight 1 :=
  ⟨rfl, token_svg_strips_ends (Json.obj [("image", Json.str "ab")])
    (Json.str "ab") "ab" rfl rfl⟩

end UniswapV3Position
